import Mathlib

/-!
Shallow embedding of the quest-api service (Rust, axum + sqlx): the
repository layer (`src/repositories/*.rs`), the auth middleware
(`src/middleware/auth.rs`) and the handlers that the claims mention,
together with proofs about them.

Conventions of the embedding:
* `std::collections::HashMap<String, V>` is modelled as an association
  list with no duplicate-key visibility: `insert` replaces, `get` finds
  the first binding, `remove` erases the key.
* `anyhow::Result` values are modelled with `Except`; a Rust `.unwrap()`
  on a `None`/`Err` — a panic — is modelled by the `panicked`
  constructor of `Outcome`.
* the Postgres backend of the `*ForDb` repositories is modelled as an
  explicit record of tables; SQL statements become functions on it, and
  a where-clause naming a column the table does not have is a statement
  error, exactly as Postgres rejects it.
* `f64` coordinates are carried, never computed on; they are modelled
  as `Rat`.
-/

namespace QuestApi

/-- Outcome of running a piece of Rust code that may return `Ok`,
return `Err`, or panic (e.g. `.unwrap()` on a missing value). -/
inductive Outcome (ε α : Type) where
  | ok (a : α)
  | err (e : ε)
  | panicked
deriving DecidableEq, Repr

/-- Errors surfaced by the sqlx/anyhow layer. -/
inductive DbErr where
  /-- Error of `sqlx` `fetch_one` finding no row (`RowNotFound`). -/
  | rowNotFound
  /-- a statement rejected by the database (e.g. an unknown column). -/
  | sqlError (msg : String)
  /-- an `anyhow!(...)` application-level error message. -/
  | message (msg : String)
deriving DecidableEq, Repr

/-- The axum status codes used by the handlers. -/
inductive StatusCode where
  | ok
  | created
  | noContent
  | badRequest
  | unauthorized
  | forbidden
  | statusNotFound
  | internalServerError
deriving DecidableEq, Repr

/-- Model of `HashMap<String, V>`: an association list whose `insert`
replaces the binding of the key. -/
def Store (α : Type) : Type := List (String × α)

namespace Store

/-- The empty map (`Arc::default()` store). -/
def empty {α : Type} : Store α := []

/-- Model of `HashMap::get`. -/
def get {α : Type} : Store α → String → Option α
  | [], _ => none
  | (k', v) :: rest, k => if k' = k then some v else get rest k

/-- Erase every binding of a key (helper for `insert`/`remove`). -/
def eraseKey {α : Type} : Store α → String → Store α
  | [], _ => []
  | (k', v) :: rest, k =>
      if k' = k then eraseKey rest k else (k', v) :: eraseKey rest k

/-- Model of `HashMap::insert`: replaces the binding of the key. -/
def insert {α : Type} (s : Store α) (k : String) (v : α) : Store α :=
  (k, v) :: s.eraseKey k

/-- Model of `HashMap::remove`. -/
def remove {α : Type} (s : Store α) (k : String) : Store α :=
  s.eraseKey k

/-- Model of `HashMap::values`. -/
def values {α : Type} (s : Store α) : List α :=
  s.map Prod.snd

end Store

/-- Quest difficulty (`src/repositories/quest.rs`). -/
inductive Difficulty where
  | Easy
  | Normal
  | Hard
deriving DecidableEq, Repr

/-- Geolocation `f64` coordinates are inert payload in every claim; they
are carried as rationals. -/
abbrev Coord : Type := Rat

/-- A row of the `quests` table (`QuestFromRow`). -/
structure QuestFromRow where
  id : String
  title : String
  description : String
  price : Int
  difficulty : Difficulty
  num_participate : Int
  num_clear : Int
deriving DecidableEq, Repr

/-- A challenge entity / row of the `challenges` table. -/
structure Challenge where
  id : String
  name : String
  description : String
  quest_id : String
  latitude : Coord
  longitude : Coord
deriving DecidableEq, Repr

/-- The aggregated quest entity returned by `QuestRepository`. -/
structure QuestEntity where
  id : String
  title : String
  description : String
  price : Int
  difficulty : Difficulty
  num_participate : Int
  num_clear : Int
  challenges : List Challenge
deriving DecidableEq, Repr

/-- Rust `QuestEntity::new`: empty challenge list. -/
def QuestEntity.new (id title description : String) (price : Int)
    (difficulty : Difficulty) (num_participate num_clear : Int) : QuestEntity :=
  { id := id, title := title, description := description, price := price,
    difficulty := difficulty, num_participate := num_participate,
    num_clear := num_clear, challenges := [] }

/-- A row of the `users` table (`UserFromRow`); `password` holds whatever
string the repository stored for the password column. -/
structure UserFromRow where
  id : String
  username : String
  email : String
  password : String
deriving DecidableEq, Repr

/-- The user entity returned outward (`UserEntity`); carries no password. -/
structure UserEntity where
  id : String
  username : String
  email : String
  participate_quest : List QuestFromRow
  complete_challenge : List String
deriving DecidableEq, Repr

/-- The `RegisterUser` request payload. -/
structure RegisterUser where
  username : String
  email : String
  password : String
deriving DecidableEq, Repr

/-- The `LoginUser` request payload. -/
structure LoginUser where
  email : String
  password : String
deriving DecidableEq, Repr

/-- The `CreateQuest` request payload. -/
structure CreateQuest where
  title : String
  description : String
  price : Int
  difficulty : Difficulty
  num_participate : Int
  num_clear : Int
deriving DecidableEq, Repr

/-- The `UpdateQuest` request payload: every field optional (PATCH). -/
structure UpdateQuest where
  title : Option String
  description : Option String
  price : Option Int
  difficulty : Option Difficulty
  num_participate : Option Int
  num_clear : Option Int
deriving DecidableEq, Repr

/-- A row of `user_participating_quests` (serial `id`, `user_id`,
`quest_id`). -/
structure ParticipationRow where
  rowId : Int
  user_id : String
  quest_id : String
deriving DecidableEq, Repr

/-- A row of `user_completed_challenges` (serial `id`, `user_id`,
`challenge_id`). -/
structure CompletionRow where
  rowId : Int
  user_id : String
  challenge_id : String
deriving DecidableEq, Repr

/-- The `ParticipateQuestPayload` request body. -/
structure ParticipateQuestPayload where
  user_id : String
deriving DecidableEq, Repr

/-- The `CompleteChallengePayload` request body. -/
structure CompleteChallengePayload where
  user_id : String
deriving DecidableEq, Repr

/-- The relational backend the `*ForDb` repositories run against:
one field per table. -/
structure DbState where
  users : List UserFromRow
  quests : List QuestFromRow
  challenges : List Challenge
  user_participating_quests : List ParticipationRow
  user_completed_challenges : List CompletionRow
deriving DecidableEq, Repr

/-- A database with empty tables. -/
def DbState.emptyDb : DbState :=
  { users := [], quests := [], challenges := [],
    user_participating_quests := [], user_completed_challenges := [] }

/-! ## In-memory repositories (`*ForMemory`) -/

/-- Rust `UserRepositoryForMemory::register`: stores the password of the payload
string as-is in the `password` field and inserts under a fresh id
(`nanoid!()`, modelled as the `newId` argument). -/
def UserRepositoryForMemory.register (newId : String) (payload : RegisterUser)
    (store : Store UserFromRow) : UserEntity × Store UserFromRow :=
  let user : UserFromRow :=
    { id := newId, username := payload.username, email := payload.email,
      password := payload.password }
  ({ id := user.id, username := user.username, email := user.email,
     participate_quest := [], complete_challenge := [] },
   store.insert newId user)

/-- Rust `UserRepositoryForMemory::login`: scans the stored values for an
entry whose email and password both equal the supplied plaintext. -/
def UserRepositoryForMemory.login (payload : LoginUser)
    (store : Store UserFromRow) : Except DbErr UserEntity :=
  match store.values.find?
      (fun user => user.email == payload.email
        && user.password == payload.password) with
  | some user =>
      .ok { id := user.id, username := user.username, email := user.email,
            participate_quest := [], complete_challenge := [] }
  | none => .error (.message "not found")

/-- Rust `UserRepositoryForMemory::find`: `store.get(&id) ... .unwrap()` — an
absent id panics. -/
def UserRepositoryForMemory.find (id : String) (store : Store UserFromRow) :
    Outcome DbErr UserEntity :=
  match store.get id with
  | some user =>
      .ok { id := user.id, username := user.username, email := user.email,
            participate_quest := [], complete_challenge := [] }
  | none => .panicked

/-- Rust `UserRepositoryForMemory::delete`: `store.remove(&id).context(NotFound)?`. -/
def UserRepositoryForMemory.delete (id : String) (store : Store UserFromRow) :
    Except DbErr (Store UserFromRow) :=
  match store.get id with
  | some _ => .ok (store.remove id)
  | none => .error (.message "entity not found")

/-- Rust `QuestRepositoryForMemory::create`. -/
def QuestRepositoryForMemory.create (newId : String) (payload : CreateQuest)
    (store : Store QuestEntity) : QuestEntity × Store QuestEntity :=
  let quest := QuestEntity.new newId payload.title payload.description
    payload.price payload.difficulty payload.num_participate payload.num_clear
  (quest, store.insert newId quest)

/-- Rust `QuestRepositoryForMemory::find`: `store.get(&id) ... .unwrap()` — an
absent id panics. -/
def QuestRepositoryForMemory.find (id : String) (store : Store QuestEntity) :
    Outcome DbErr QuestEntity :=
  match store.get id with
  | some quest => .ok quest
  | none => .panicked

/-- Rust `QuestRepositoryForMemory::all`. -/
def QuestRepositoryForMemory.all (store : Store QuestEntity) :
    List QuestEntity :=
  store.values

/-- Rust `QuestRepositoryForMemory::update`: each unset payload field keeps
the stored value (`unwrap_or`), the id is copied from the stored entity,
and the result is re-inserted under the same key. -/
def QuestRepositoryForMemory.update (id : String) (payload : UpdateQuest)
    (store : Store QuestEntity) :
    Except DbErr (QuestEntity × Store QuestEntity) :=
  match store.get id with
  | none => .error (.message "entity not found")
  | some quest =>
      let quest' : QuestEntity :=
        { id := quest.id,
          title := payload.title.getD quest.title,
          description := payload.description.getD quest.description,
          price := payload.price.getD quest.price,
          difficulty := payload.difficulty.getD quest.difficulty,
          num_participate := payload.num_participate.getD quest.num_participate,
          num_clear := payload.num_clear.getD quest.num_clear,
          challenges := quest.challenges }
      .ok (quest', store.insert id quest')

/-- Rust `QuestRepositoryForMemory::delete`: `store.remove(&id).context(NotFound)?`. -/
def QuestRepositoryForMemory.delete (id : String) (store : Store QuestEntity) :
    Except DbErr (Store QuestEntity) :=
  match store.get id with
  | some _ => .ok (store.remove id)
  | none => .error (.message "entity not found")

/-- Rust `ChallengeRepositoryForMemory::create`. -/
def ChallengeRepositoryForMemory.create (newId : String)
    (name description quest_id : String) (latitude longitude : Coord)
    (store : Store Challenge) : Challenge × Store Challenge :=
  let challenge : Challenge :=
    { id := newId, name := name, description := description,
      quest_id := quest_id, latitude := latitude, longitude := longitude }
  (challenge, store.insert newId challenge)

/-- Rust `ChallengeRepositoryForMemory::find`: `store.get(&id) ... .unwrap()` —
an absent id panics. -/
def ChallengeRepositoryForMemory.find (id : String) (store : Store Challenge) :
    Outcome DbErr Challenge :=
  match store.get id with
  | some challenge => .ok challenge
  | none => .panicked

/-- Rust `ChallengeRepositoryForMemory::find_by_quest_id`. -/
def ChallengeRepositoryForMemory.find_by_quest_id (quest_id : String)
    (store : Store Challenge) : List Challenge :=
  store.values.filter (fun challenge => challenge.quest_id == quest_id)

/-! ## Database-backed repositories (`*ForDb`)

`nanoid!()` is modelled as a caller-supplied fresh id; `bcrypt::hash`
and `bcrypt::verify` are external primitives, passed in as function
arguments. -/

/-- The `select user_participating_quests.*, quests.title, ... from
user_participating_quests left outer join quests on quest_id = quests.id
where user_id=$1` query. A participation row whose `quest_id` matches no
quest produces null quest columns, which fail to decode into
`QuestFromRow`; the source maps that failure through
`.map_err(|_| Vec::new()).unwrap()`, i.e. it panics (`none` here). -/
def selectUserQuests (uid : String) (db : DbState) :
    Option (List QuestFromRow) :=
  (db.user_participating_quests.filter (fun r => r.user_id == uid)).mapM
    (fun r => (db.quests.find? (fun q => q.id == r.quest_id)).map
      (fun q =>
        { id := r.quest_id, title := q.title, description := q.description,
          price := q.price, difficulty := q.difficulty,
          num_participate := q.num_participate, num_clear := q.num_clear }))

/-- Query `select * from user_completed_challenges where user_id=$1`, projected
to the challenge ids the caller keeps. -/
def selectUserChallenges (uid : String) (db : DbState) : List String :=
  (db.user_completed_challenges.filter (fun r => r.user_id == uid)).map
    (fun r => r.challenge_id)

/-- Rust `UserRepositoryForDb::register`: hashes the plaintext with
`bcrypt::hash` (the `hashFn` argument) and inserts the row. Storage
constraint violations live in the external schema and are not
modelled. -/
def UserRepositoryForDb.register (hashFn : String → String) (newId : String)
    (payload : RegisterUser) (db : DbState) : UserEntity × DbState :=
  let hashed_password := hashFn payload.password
  let row : UserFromRow :=
    { id := newId, username := payload.username, email := payload.email,
      password := hashed_password }
  ({ id := row.id, username := row.username, email := row.email,
     participate_quest := [], complete_challenge := [] },
   { db with users := db.users ++ [row] })

/-- Rust `UserRepositoryForDb::login`: `fetch_one` by email (`RowNotFound`
when no user has that email), then `bcrypt::verify` (the `verifyFn`
argument, supplied password against stored hash); a mismatch is
`anyhow!("Invalid Password")`. On success the joined quests and
completed challenges are aggregated. -/
def UserRepositoryForDb.login (verifyFn : String → String → Bool)
    (payload : LoginUser) (db : DbState) : Outcome DbErr UserEntity :=
  match db.users.find? (fun u => u.email == payload.email) with
  | none => .err .rowNotFound
  | some user_row =>
      if verifyFn payload.password user_row.password then
        match selectUserQuests user_row.id db with
        | none => .panicked
        | some quests =>
            .ok { id := user_row.id, username := user_row.username,
                  email := user_row.email, participate_quest := quests,
                  complete_challenge := selectUserChallenges user_row.id db }
      else .err (.message "Invalid Password")

/-- Rust `UserRepositoryForDb::find`: `fetch_one` by id, then the same two
aggregation queries as `login`, bound to the requested id. -/
def UserRepositoryForDb.find (id : String) (db : DbState) :
    Outcome DbErr UserEntity :=
  match db.users.find? (fun u => u.id == id) with
  | none => .err .rowNotFound
  | some user_row =>
      match selectUserQuests id db with
      | none => .panicked
      | some quests =>
          .ok { id := user_row.id, username := user_row.username,
                email := user_row.email, participate_quest := quests,
                complete_challenge := selectUserChallenges id db }

/-- Statement `delete from user_completed_challenges where <col>=$1`.
Text columns of the table are `user_id` and `challenge_id` (its serial `id` is
integer-typed and never bound to a text parameter in the source); a
where-clause naming any other column is rejected by the database. -/
def sqlDeleteCompletionsWhere (col v : String) (db : DbState) :
    Except DbErr DbState :=
  if col = "user_id" then
    .ok { db with user_completed_challenges :=
            db.user_completed_challenges.filter (fun r => r.user_id != v) }
  else if col = "challenge_id" then
    .ok { db with user_completed_challenges :=
            db.user_completed_challenges.filter (fun r => r.challenge_id != v) }
  else .error (.sqlError ("column " ++ col ++ " does not exist"))

/-- Statement `delete from user_participating_quests where <col>=$1`; text columns
are `user_id` and `quest_id`. -/
def sqlDeleteParticipationsWhere (col v : String) (db : DbState) :
    Except DbErr DbState :=
  if col = "user_id" then
    .ok { db with user_participating_quests :=
            db.user_participating_quests.filter (fun r => r.user_id != v) }
  else if col = "quest_id" then
    .ok { db with user_participating_quests :=
            db.user_participating_quests.filter (fun r => r.quest_id != v) }
  else .error (.sqlError ("column " ++ col ++ " does not exist"))

/-- Statement `delete from users where <col>=$1`; every `users` column is text. -/
def sqlDeleteUsersWhere (col v : String) (db : DbState) :
    Except DbErr DbState :=
  if col = "id" then
    .ok { db with users := db.users.filter (fun u => u.id != v) }
  else if col = "username" then
    .ok { db with users := db.users.filter (fun u => u.username != v) }
  else if col = "email" then
    .ok { db with users := db.users.filter (fun u => u.email != v) }
  else if col = "password" then
    .ok { db with users := db.users.filter (fun u => u.password != v) }
  else .error (.sqlError ("column " ++ col ++ " does not exist"))

/-- Rust `UserRepositoryForDb::delete`. The source opens a transaction
(`let tx = self.pool.begin()`) but runs each statement on `&self.pool`,
not on `tx`, so every statement takes effect (or fails) immediately and
independently; `tx.commit()` commits the empty transaction. The two
event-table deletes spell the where-column `use_id`. The pair returned
is (result, the database state after the call). -/
def UserRepositoryForDb.delete (id : String) (db : DbState) :
    Except DbErr Unit × DbState :=
  match sqlDeleteCompletionsWhere "use_id" id db with
  | .error e => (.error e, db)
  | .ok db1 =>
      match sqlDeleteParticipationsWhere "use_id" id db1 with
      | .error e => (.error e, db1)
      | .ok db2 =>
          match sqlDeleteUsersWhere "id" id db2 with
          | .error e => (.error e, db2)
          | .ok db3 => (.ok (), db3)

/-- Rust `QuestRepositoryForDb::find`: `fetch_one` of the quest row
(`RowNotFound` when absent), then the challenges of the quest. -/
def QuestRepositoryForDb.find (id : String) (db : DbState) :
    Except DbErr QuestEntity :=
  match db.quests.find? (fun q => q.id == id) with
  | none => .error .rowNotFound
  | some row =>
      .ok { id := row.id, title := row.title, description := row.description,
            price := row.price, difficulty := row.difficulty,
            num_participate := row.num_participate, num_clear := row.num_clear,
            challenges := db.challenges.filter (fun c => c.quest_id == id) }

/-- Rust `QuestRepositoryForDb::update`: reads the old entity via `find`,
then `update quests set title=$1, ..., num_clear=$6 where id=$7
returning *` with each bind `payload.field.unwrap_or(old_quest.field)`;
the returned entity reuses the challenges of the old entity. -/
def QuestRepositoryForDb.update (id : String) (payload : UpdateQuest)
    (db : DbState) : Except DbErr (QuestEntity × DbState) :=
  match QuestRepositoryForDb.find id db with
  | .error e => .error e
  | .ok old_quest =>
      let setRow : QuestFromRow → QuestFromRow := fun q =>
        { id := q.id,
          title := payload.title.getD old_quest.title,
          description := payload.description.getD old_quest.description,
          price := payload.price.getD old_quest.price,
          difficulty := payload.difficulty.getD old_quest.difficulty,
          num_participate :=
            payload.num_participate.getD old_quest.num_participate,
          num_clear := payload.num_clear.getD old_quest.num_clear }
      match db.quests.find? (fun q => q.id == id) with
      | none => .error .rowNotFound
      | some q0 =>
          let row := setRow q0
          .ok ({ id := row.id, title := row.title,
                 description := row.description, price := row.price,
                 difficulty := row.difficulty,
                 num_participate := row.num_participate,
                 num_clear := row.num_clear,
                 challenges := old_quest.challenges },
               { db with quests :=
                   db.quests.map (fun q => if q.id == id then setRow q else q) })

/-- Rust `UserQuestRepositoryForDb::save_quest_participate_event`:
`insert into user_participating_quests (user_id, quest_id) values
($1, $2) returning *`; the serial row id is assigned by the store. -/
def UserQuestRepositoryForDb.save_quest_participate_event
    (user_id quest_id : String) (db : DbState) : Except DbErr DbState :=
  .ok { db with user_participating_quests :=
          db.user_participating_quests ++
            [{ rowId := (db.user_participating_quests.length : Int) + 1,
               user_id := user_id, quest_id := quest_id }] }

/-- Rust `UserQuestRepositoryForDb::get_participated_quests_by_user_id`:
`select * from user_participating_quests where user_id=$1`, projected to
the quest ids; zero rows is an `Ok` empty list. -/
def UserQuestRepositoryForDb.get_participated_quests_by_user_id
    (user_id : String) (db : DbState) : Except DbErr (List String) :=
  .ok ((db.user_participating_quests.filter
          (fun r => r.user_id == user_id)).map (fun r => r.quest_id))

/-- Rust `UserChallengeRepositoryForDb::save_challenge_complete_event`. -/
def UserChallengeRepositoryForDb.save_challenge_complete_event
    (user_id challenge_id : String) (db : DbState) : Except DbErr DbState :=
  .ok { db with user_completed_challenges :=
          db.user_completed_challenges ++
            [{ rowId := (db.user_completed_challenges.length : Int) + 1,
               user_id := user_id, challenge_id := challenge_id }] }

/-- Rust `UserChallengeRepositoryForDb::get_completed_challenges_by_user_id`:
zero rows is an `Ok` empty list. -/
def UserChallengeRepositoryForDb.get_completed_challenges_by_user_id
    (user_id : String) (db : DbState) : Except DbErr (List String) :=
  .ok ((db.user_completed_challenges.filter
          (fun r => r.user_id == user_id)).map (fun r => r.challenge_id))

/-! ## Token service, auth middleware, handlers -/

/-- The JWT claims: `{user_id, iat, exp}`. -/
structure Claims where
  user_id : String
  iat : Int
  exp : Int
deriving DecidableEq, Repr

/-- Modelled from the spec: the Token Service (§4.1) — `create_jwt` and
`decode_jwt` are called from `src/middleware/auth.rs` and the handlers
but are not defined under src/. A token is the encoded claims plus the
key that signed it; signature validity means being signed with the
verifying key. -/
structure Jwt where
  claims : Claims
  signedWith : String
deriving DecidableEq, Repr

/-- Modelled from the spec: `issue(user_id, issued_at, expires_at,
signing_key) -> token`; deterministic, no side effects. -/
def create_jwt (user_id : String) (iat exp : Int) (key : String) : Jwt :=
  { claims := { user_id := user_id, iat := iat, exp := exp },
    signedWith := key }

/-- Modelled from the spec: `verify(token, signing_key)` — checks
signature validity and that the current time lies within `[iat, exp)`;
any failure is Invalid (`none`). -/
def decode_jwt (token : Jwt) (key : String) (now : Int) : Option Jwt :=
  if token.signedWith = key ∧ token.claims.iat ≤ now ∧ now < token.claims.exp
  then some token else none

/-- The part of an HTTP request the auth middleware inspects: the cookie
header, absent or a list of name–token pairs. -/
structure Request where
  cookies : Option (List (String × Jwt))
deriving DecidableEq, Repr

/-- Model of `Cookie::get(name)`. -/
def cookieGet (cookies : List (String × Jwt)) (name : String) : Option Jwt :=
  (cookies.find? (fun c => c.1 == name)).map Prod.snd

/-- Rust `auth_middleware` (`src/middleware/auth.rs`): a request with no
cookie header, or with one lacking a `session_token` cookie, is rejected
with 401; otherwise the token goes through
`decode_jwt(session_token, &secret_key).unwrap()` — a verification
failure panics — and on success the decoded user id is inserted into the
request extensions and the inner service runs. -/
def auth_middleware {α : Type} (secret_key : String) (now : Int)
    (req : Request) (next : String → α) : Outcome StatusCode α :=
  match req.cookies with
  | some cookies =>
      match cookieGet cookies "session_token" with
      | some session_token =>
          match decode_jwt session_token secret_key now with
          | some decoded_token => .ok (next decoded_token.claims.user_id)
          | none => .panicked
      | none => .err .unauthorized
  | none => .err .unauthorized

/-- Rust `login_user` handler (`src/handlers/user.rs`): every repository
failure is collapsed to 404 by `.or(Err(StatusCode::NOT_FOUND))`;
success issues an 8-hour token attached as the `session_token` cookie
and answers 201 with the user. -/
def login_user (verifyFn : String → String → Bool) (secret_key : String)
    (now : Int) (payload : LoginUser) (db : DbState) :
    Outcome StatusCode (StatusCode × Jwt × UserEntity) :=
  match UserRepositoryForDb.login verifyFn payload db with
  | .ok user =>
      .ok (.created, create_jwt user.id now (now + 8 * 3600) secret_key, user)
  | .err _ => .err .statusNotFound
  | .panicked => .panicked

/-- Rust `participate_quest` handler (`src/handlers/user_quest.rs`): appends
the event with the `user_id` of the body and the `quest_id` of the path; a
repository failure is 400 (`.or(Err(StatusCode::BAD_REQUEST))`). The
pair returned is (response, the database state after the call). -/
def participate_quest (quest_id : String) (payload : ParticipateQuestPayload)
    (db : DbState) : Except StatusCode StatusCode × DbState :=
  match UserQuestRepositoryForDb.save_quest_participate_event
      payload.user_id quest_id db with
  | .ok db' => (.ok .created, db')
  | .error _ => (.error .badRequest, db)

/-- Rust `complete_challenge` handler (`src/handlers/user_challenge.rs`):
same shape as `participate_quest` over the completion table. -/
def complete_challenge (challenge_id : String)
    (payload : CompleteChallengePayload) (db : DbState) :
    Except StatusCode StatusCode × DbState :=
  match UserChallengeRepositoryForDb.save_challenge_complete_event
      payload.user_id challenge_id db with
  | .ok db' => (.ok .created, db')
  | .error _ => (.error .badRequest, db)

/-- The protected `POST /quests/:id/participate` route as wired in
`main.rs`: the auth middleware runs first; the extractors of the handler are
the path, the JSON body and the repository — the user id the middleware
injected into the extensions is not among them. -/
def participate_quest_route (secret_key : String) (now : Int) (req : Request)
    (quest_id : String) (payload : ParticipateQuestPayload) (db : DbState) :
    Outcome StatusCode (Except StatusCode StatusCode × DbState) :=
  auth_middleware secret_key now req
    (fun _user_id_from_token => participate_quest quest_id payload db)

/-- The protected `POST /challenges/:id/complete` route as wired in
`main.rs`. -/
def complete_challenge_route (secret_key : String) (now : Int) (req : Request)
    (challenge_id : String) (payload : CompleteChallengePayload)
    (db : DbState) :
    Outcome StatusCode (Except StatusCode StatusCode × DbState) :=
  auth_middleware secret_key now req
    (fun _user_id_from_token => complete_challenge challenge_id payload db)

/-- Key coherence of the in-memory quest store: the `id` field of every
stored entity equals the key it is stored under. -/
def QuestStoreWF (store : Store QuestEntity) : Prop :=
  ∀ k q, store.get k = some q → q.id = k

namespace Store

theorem get_eraseKey {α : Type} (s : Store α) (k k' : String) :
    (s.eraseKey k).get k' = if k' = k then none else s.get k' := by
  induction s with
  | nil => simp [eraseKey, get]
  | cons hd tl ih =>
    obtain ⟨k₀, v₀⟩ := hd
    show (if k₀ = k then eraseKey tl k
          else (k₀, v₀) :: eraseKey tl k).get k'
        = if k' = k then none
          else (if k₀ = k' then some v₀ else get tl k')
    by_cases h₀ : k₀ = k
    · rw [if_pos h₀, ih]
      by_cases h₁ : k' = k
      · rw [if_pos h₁, if_pos h₁]
      · rw [if_neg h₁, if_neg h₁, if_neg (fun h : k₀ = k' => h₁ (h ▸ h₀))]
    · rw [if_neg h₀]
      show (if k₀ = k' then some v₀ else (eraseKey tl k).get k')
          = if k' = k then none
            else (if k₀ = k' then some v₀ else get tl k')
      by_cases h₁ : k₀ = k'
      · rw [if_pos h₁, if_neg (fun h : k' = k => h₀ (h₁.trans h)), if_pos h₁]
      · rw [if_neg h₁, ih]
        by_cases h₂ : k' = k
        · rw [if_pos h₂, if_pos h₂]
        · rw [if_neg h₂, if_neg h₂, if_neg h₁]

theorem get_insert {α : Type} (s : Store α) (k k' : String) (v : α) :
    (s.insert k v).get k' = if k' = k then some v else s.get k' := by
  show (if k = k' then some v else (s.eraseKey k).get k')
      = if k' = k then some v else s.get k'
  by_cases h : k' = k
  · rw [if_pos h.symm, if_pos h]
  · rw [if_neg (fun hh : k = k' => h hh.symm), if_neg h, get_eraseKey, if_neg h]

theorem get_remove {α : Type} (s : Store α) (k k' : String) :
    (s.remove k).get k' = if k' = k then none else s.get k' :=
  get_eraseKey s k k'

end Store

/-! ## Claim theorems -/

/-- C1: the auth guard answers 401 when the `session_token` cookie is
missing, but a supplied token that fails verification — signed with a
different key, or expired — makes the guard panic on `.unwrap()` instead
of rejecting with 401: the no-panic part of the claim fails on the
code. -/
theorem auth_middleware_bad_token_panics :
    auth_middleware "key" 5 { cookies := none } (fun _ => StatusCode.ok)
      = .err .unauthorized
    ∧ auth_middleware "key" 5 { cookies := some [] } (fun _ => StatusCode.ok)
      = .err .unauthorized
    ∧ auth_middleware "key" 5
        { cookies := some [("session_token", create_jwt "u1" 0 100 "otherkey")] }
        (fun _ => StatusCode.ok) = .panicked
    ∧ auth_middleware "key" 5
        { cookies := some [("session_token", create_jwt "u1" 0 3 "key")] }
        (fun _ => StatusCode.ok) = .panicked := by
  decide

/-- A database holding one user together with one participation record
for that user. -/
def dbWithAnn : DbState :=
  { users := [{ id := "u1", username := "Ann", email := "ann@x.io",
                password := "bcrypt$pw" }],
    quests := [], challenges := [],
    user_participating_quests :=
      [{ rowId := 1, user_id := "u1", quest_id := "q1" }],
    user_completed_challenges := [] }

/-- C2: `UserRepositoryForDb::delete` never removes anything: its first
statement names the nonexistent column `use_id`, so the call fails with
a statement error and the user row and its participation record are both
still present afterwards (and the statements run on the pool, outside
the transaction it opened). -/
theorem user_delete_fails_on_use_id_column :
    UserRepositoryForDb.delete "u1" dbWithAnn
      = (.error (.sqlError "column use_id does not exist"), dbWithAnn) := by
  rfl

/-- C5: each in-memory read-by-id panics on an id absent from the store
(`store.get(&id) ... .unwrap()`) instead of returning a NotFound
failure. -/
theorem memory_find_absent_id_panics :
    UserRepositoryForMemory.find "missing" Store.empty = .panicked
    ∧ QuestRepositoryForMemory.find "missing" Store.empty = .panicked
    ∧ ChallengeRepositoryForMemory.find "missing" Store.empty = .panicked :=
  ⟨rfl, rfl, rfl⟩

/-- C6 counterexample: against a database storing no users and no
quests, `participate_quest "q1"` for body user `"u1"` answers
201 Created and appends the record — it does not fail with NotFound,
so the handler performs no existence lookups. -/
theorem participate_quest_missing_user_and_quest_succeeds :
    (participate_quest "q1" { user_id := "u1" } DbState.emptyDb).1
      = .ok .created
    ∧ (participate_quest "q1" { user_id := "u1" } DbState.emptyDb
        ).2.user_participating_quests
      = [{ rowId := 1, user_id := "u1", quest_id := "q1" }]
    ∧ DbState.emptyDb.users = [] ∧ DbState.emptyDb.quests = [] :=
  ⟨rfl, rfl, rfl, rfl⟩

/-- C6 (amended): `participate_quest` looks up neither the User nor the
Quest; for every database state it unconditionally appends one
ParticipationRecord carrying the `user_id` of the body and the `quest_id`
of the path and answers 201 Created, so the caller observes a single
outcome per request. -/
theorem participate_quest_appends_unconditionally (quest_id : String)
    (payload : ParticipateQuestPayload) (db : DbState) :
    participate_quest quest_id payload db
      = (.ok .created,
         { db with user_participating_quests :=
             db.user_participating_quests ++
               [{ rowId := (db.user_participating_quests.length : Int) + 1,
                  user_id := payload.user_id, quest_id := quest_id }] }) :=
  rfl

/-- C3 counterexample: `UserRepositoryForMemory::register` persists the
plaintext: after registering with password `"pw"`, the stored password
column holds `"pw"` itself. -/
theorem memory_register_stores_plaintext :
    (((UserRepositoryForMemory.register "u1"
        { username := "Ann", email := "ann@x.io", password := "pw" }
        Store.empty).2).get "u1").map (fun u => u.password)
      = some "pw" := by
  decide

/-- C3 (amended): `UserRepositoryForDb::register` stores exactly the
output of the hashing primitive for the password of the payload, while
`UserRepositoryForMemory::register` stores the plaintext password
unchanged. -/
theorem register_password_storage (hashFn : String → String)
    (newId : String) (payload : RegisterUser) (db : DbState)
    (store : Store UserFromRow) :
    ((UserRepositoryForDb.register hashFn newId payload db).2).users
      = db.users ++ [{ id := newId, username := payload.username,
                       email := payload.email,
                       password := hashFn payload.password }]
    ∧ (((UserRepositoryForMemory.register newId payload store).2).get
          newId).map (fun u => u.password)
      = some payload.password := by
  refine ⟨rfl, ?_⟩
  simp [UserRepositoryForMemory.register, Store.get_insert]

/-- Concrete model of `bcrypt::verify` for closed instances: a stored
string verifies when it is the tagged digest of the password. -/
def bcryptVerifyModel (password stored : String) : Bool :=
  stored == "bcrypt$" ++ password

/-- C4 counterexample: `UserRepositoryForDb::login` surfaces distinct
failures for the two causes — an email matching no user yields the
`RowNotFound` fetch error while a stored email with a non-matching
password yields `anyhow!("Invalid Password")` — not one generic
Unauthorized outcome. -/
theorem db_login_failures_distinguishable :
    UserRepositoryForDb.login bcryptVerifyModel
        { email := "bob@x.io", password := "pw" } dbWithAnn
      = .err .rowNotFound
    ∧ UserRepositoryForDb.login bcryptVerifyModel
        { email := "ann@x.io", password := "wrong" } dbWithAnn
      = .err (.message "Invalid Password")
    ∧ DbErr.rowNotFound ≠ DbErr.message "Invalid Password" :=
  ⟨rfl, rfl, by decide⟩

/-- C4 (amended): the two login failure causes become indistinguishable
only at the handler boundary: whatever distinct errors the repository
surfaces, `login_user` maps every repository failure to the same
`StatusCode::NOT_FOUND` — a 404, not a 401 Unauthorized — so the HTTP
caller cannot tell which factor failed. -/
theorem login_user_collapses_failures (verifyFn : String → String → Bool)
    (secret_key : String) (now : Int) (p1 p2 : LoginUser) (db : DbState)
    (e1 e2 : DbErr)
    (h1 : UserRepositoryForDb.login verifyFn p1 db = .err e1)
    (h2 : UserRepositoryForDb.login verifyFn p2 db = .err e2) :
    login_user verifyFn secret_key now p1 db = .err .statusNotFound
    ∧ login_user verifyFn secret_key now p1 db
      = login_user verifyFn secret_key now p2 db := by
  constructor
  · simp [login_user, h1]
  · simp [login_user, h1, h2]

/-- C4 witness: both failing login attempts against `dbWithAnn` answer
404 through the handler. -/
theorem login_user_collapses_failures_witness :
    login_user bcryptVerifyModel "key" 0
        { email := "bob@x.io", password := "pw" } dbWithAnn
      = .err .statusNotFound
    ∧ login_user bcryptVerifyModel "key" 0
        { email := "bob@x.io", password := "pw" } dbWithAnn
      = login_user bcryptVerifyModel "key" 0
          { email := "ann@x.io", password := "wrong" } dbWithAnn :=
  login_user_collapses_failures bcryptVerifyModel "key" 0
    { email := "bob@x.io", password := "pw" }
    { email := "ann@x.io", password := "wrong" } dbWithAnn
    .rowNotFound (.message "Invalid Password") rfl rfl

/-- C7: `update` has PATCH semantics on both implementations: every
field supplied as `Some v` becomes `v`, every field left `None` keeps
its previous value, the id is unchanged, and no other stored quest is
touched. -/
theorem quest_update_partial_semantics (id : String) (payload : UpdateQuest)
    (store : Store QuestEntity) (q : QuestEntity)
    (hs : store.get id = some q)
    (db : DbState) (r : QuestFromRow)
    (hdb : db.quests.find? (fun x => x.id == id) = some r) :
    (∃ q' s', QuestRepositoryForMemory.update id payload store = .ok (q', s')
      ∧ q'.id = q.id
      ∧ q'.title = payload.title.getD q.title
      ∧ q'.description = payload.description.getD q.description
      ∧ q'.price = payload.price.getD q.price
      ∧ q'.difficulty = payload.difficulty.getD q.difficulty
      ∧ q'.num_participate = payload.num_participate.getD q.num_participate
      ∧ q'.num_clear = payload.num_clear.getD q.num_clear
      ∧ q'.challenges = q.challenges
      ∧ s'.get id = some q'
      ∧ (∀ k, k ≠ id → s'.get k = store.get k))
    ∧ (∃ e db', QuestRepositoryForDb.update id payload db = .ok (e, db')
      ∧ e.id = r.id
      ∧ e.title = payload.title.getD r.title
      ∧ e.description = payload.description.getD r.description
      ∧ e.price = payload.price.getD r.price
      ∧ e.difficulty = payload.difficulty.getD r.difficulty
      ∧ e.num_participate = payload.num_participate.getD r.num_participate
      ∧ e.num_clear = payload.num_clear.getD r.num_clear
      ∧ e.challenges = db.challenges.filter (fun c => c.quest_id == id)
      ∧ db'.quests = db.quests.map (fun x =>
          if x.id == id then
            { id := x.id,
              title := payload.title.getD r.title,
              description := payload.description.getD r.description,
              price := payload.price.getD r.price,
              difficulty := payload.difficulty.getD r.difficulty,
              num_participate :=
                payload.num_participate.getD r.num_participate,
              num_clear := payload.num_clear.getD r.num_clear }
          else x)) := by
  constructor
  · have hmem : QuestRepositoryForMemory.update id payload store
        = .ok (⟨q.id, payload.title.getD q.title,
                payload.description.getD q.description,
                payload.price.getD q.price,
                payload.difficulty.getD q.difficulty,
                payload.num_participate.getD q.num_participate,
                payload.num_clear.getD q.num_clear, q.challenges⟩,
               store.insert id
                 ⟨q.id, payload.title.getD q.title,
                  payload.description.getD q.description,
                  payload.price.getD q.price,
                  payload.difficulty.getD q.difficulty,
                  payload.num_participate.getD q.num_participate,
                  payload.num_clear.getD q.num_clear, q.challenges⟩) := by
      simp [QuestRepositoryForMemory.update, hs]
    refine ⟨_, _, hmem, rfl, rfl, rfl, rfl, rfl, rfl, rfl, rfl, ?_, ?_⟩
    · rw [Store.get_insert, if_pos rfl]
    · intro k hk
      rw [Store.get_insert, if_neg hk]
  · have hfind : QuestRepositoryForDb.find id db
        = .ok { id := r.id, title := r.title, description := r.description,
                price := r.price, difficulty := r.difficulty,
                num_participate := r.num_participate,
                num_clear := r.num_clear,
                challenges := db.challenges.filter
                  (fun c => c.quest_id == id) } := by
      simp [QuestRepositoryForDb.find, hdb]
    have hupd : QuestRepositoryForDb.update id payload db
        = .ok ({ id := r.id,
                 title := payload.title.getD r.title,
                 description := payload.description.getD r.description,
                 price := payload.price.getD r.price,
                 difficulty := payload.difficulty.getD r.difficulty,
                 num_participate :=
                   payload.num_participate.getD r.num_participate,
                 num_clear := payload.num_clear.getD r.num_clear,
                 challenges := db.challenges.filter
                   (fun c => c.quest_id == id) },
               { db with quests := db.quests.map (fun x =>
                   if x.id == id then
                     { id := x.id,
                       title := payload.title.getD r.title,
                       description := payload.description.getD r.description,
                       price := payload.price.getD r.price,
                       difficulty := payload.difficulty.getD r.difficulty,
                       num_participate :=
                         payload.num_participate.getD r.num_participate,
                       num_clear := payload.num_clear.getD r.num_clear }
                   else x) }) := by
      simp [QuestRepositoryForDb.update, hfind, hdb]
    exact ⟨_, _, hupd, rfl, rfl, rfl, rfl, rfl, rfl, rfl, rfl, rfl⟩

/-- The stored quest used to instantiate C7. -/
def sampleQuest : QuestEntity :=
  { id := "q1", title := "old title", description := "old description",
    price := 0, difficulty := .Easy, num_participate := 0, num_clear := 0,
    challenges := [] }

/-- The quest row used to instantiate the database half of C7. -/
def sampleQuestRow : QuestFromRow :=
  { id := "q1", title := "old title", description := "old description",
    price := 0, difficulty := .Easy, num_participate := 0, num_clear := 0 }

/-- A PATCH payload setting only the title. -/
def titleOnlyPatch : UpdateQuest :=
  { title := some "X", description := none, price := none,
    difficulty := none, num_participate := none, num_clear := none }

/-- C7 witness: updating quest `"q1"` with a title-only PATCH against a
one-quest store. -/
theorem quest_update_partial_semantics_witness :
    ∃ q' s', QuestRepositoryForMemory.update "q1" titleOnlyPatch
        [("q1", sampleQuest)] = .ok (q', s')
      ∧ q'.id = sampleQuest.id
      ∧ q'.title = titleOnlyPatch.title.getD sampleQuest.title
      ∧ q'.description = titleOnlyPatch.description.getD sampleQuest.description
      ∧ q'.price = titleOnlyPatch.price.getD sampleQuest.price
      ∧ q'.difficulty = titleOnlyPatch.difficulty.getD sampleQuest.difficulty
      ∧ q'.num_participate
          = titleOnlyPatch.num_participate.getD sampleQuest.num_participate
      ∧ q'.num_clear = titleOnlyPatch.num_clear.getD sampleQuest.num_clear
      ∧ q'.challenges = sampleQuest.challenges
      ∧ s'.get "q1" = some q'
      ∧ (∀ k, k ≠ "q1" → s'.get k = Store.get [("q1", sampleQuest)] k) :=
  (quest_update_partial_semantics "q1" titleOnlyPatch [("q1", sampleQuest)]
    sampleQuest rfl
    { users := [], quests := [sampleQuestRow], challenges := [],
      user_participating_quests := [], user_completed_challenges := [] }
    sampleQuestRow rfl).1

/-- C8: a user id with zero stored participation events gets a
successful empty list from `get_participated_quests_by_user_id`, and
likewise `get_completed_challenges_by_user_id` for zero completion
events. -/
theorem event_queries_empty_list (user_id : String) (db : DbState)
    (hq : db.user_participating_quests.filter
        (fun r => r.user_id == user_id) = [])
    (hc : db.user_completed_challenges.filter
        (fun r => r.user_id == user_id) = []) :
    UserQuestRepositoryForDb.get_participated_quests_by_user_id user_id db
      = .ok []
    ∧ UserChallengeRepositoryForDb.get_completed_challenges_by_user_id
        user_id db = .ok [] := by
  constructor
  · simp [UserQuestRepositoryForDb.get_participated_quests_by_user_id, hq]
  · simp [UserChallengeRepositoryForDb.get_completed_challenges_by_user_id, hc]

/-- C8 witness: the empty database holds no events for `"u9"`. -/
theorem event_queries_empty_list_witness :
    UserQuestRepositoryForDb.get_participated_quests_by_user_id "u9"
      DbState.emptyDb = .ok []
    ∧ UserChallengeRepositoryForDb.get_completed_challenges_by_user_id "u9"
      DbState.emptyDb = .ok [] :=
  event_queries_empty_list "u9" DbState.emptyDb rfl rfl

/-- C9: on the protected participate/complete routes the recorded
user_id is the one of the request body, not the one of the verified token:
two requests
differing only in which (valid) identity their token proves produce
identical responses and identical database states, and the appended
event carries the user_id of the body — so any authenticated caller can
append an event for an arbitrary user_id. -/
theorem event_routes_use_body_user_id (secret_key : String) (now : Int)
    (r1 r2 : Request) (c1 c2 : List (String × Jwt)) (t1 t2 : Jwt)
    (h1 : r1.cookies = some c1)
    (h1t : cookieGet c1 "session_token" = some t1)
    (h1v : decode_jwt t1 secret_key now = some t1)
    (h2 : r2.cookies = some c2)
    (h2t : cookieGet c2 "session_token" = some t2)
    (h2v : decode_jwt t2 secret_key now = some t2)
    (quest_id challenge_id : String) (pq : ParticipateQuestPayload)
    (pc : CompleteChallengePayload) (db : DbState) :
    participate_quest_route secret_key now r1 quest_id pq db
      = participate_quest_route secret_key now r2 quest_id pq db
    ∧ participate_quest_route secret_key now r1 quest_id pq db
      = .ok (.ok .created,
          { db with user_participating_quests :=
              db.user_participating_quests ++
                [{ rowId := (db.user_participating_quests.length : Int) + 1,
                   user_id := pq.user_id, quest_id := quest_id }] })
    ∧ complete_challenge_route secret_key now r1 challenge_id pc db
      = complete_challenge_route secret_key now r2 challenge_id pc db
    ∧ complete_challenge_route secret_key now r1 challenge_id pc db
      = .ok (.ok .created,
          { db with user_completed_challenges :=
              db.user_completed_challenges ++
                [{ rowId := (db.user_completed_challenges.length : Int) + 1,
                   user_id := pc.user_id,
                   challenge_id := challenge_id }] }) := by
  refine ⟨?_, ?_, ?_, ?_⟩ <;>
    simp [participate_quest_route, complete_challenge_route,
      auth_middleware, h1, h1t, h1v, h2, h2t, h2v, participate_quest,
      complete_challenge,
      UserQuestRepositoryForDb.save_quest_participate_event,
      UserChallengeRepositoryForDb.save_challenge_complete_event]

/-- A request authenticated as `"alice"` with a token valid at time 5
under key `"k"`. -/
def reqAlice : Request :=
  { cookies := some [("session_token", create_jwt "alice" 0 100 "k")] }

/-- A request authenticated as `"bob"` with a token valid at time 5
under key `"k"`. -/
def reqBob : Request :=
  { cookies := some [("session_token", create_jwt "bob" 0 100 "k")] }

/-- C9 witness: the participate route treats the authenticated requests
of Alice and of Bob identically for the same body and path. -/
theorem event_routes_use_body_user_id_witness :
    participate_quest_route "k" 5 reqAlice "q1" { user_id := "u7" }
        DbState.emptyDb
      = participate_quest_route "k" 5 reqBob "q1" { user_id := "u7" }
          DbState.emptyDb :=
  (event_routes_use_body_user_id "k" 5 reqAlice reqBob
    [("session_token", create_jwt "alice" 0 100 "k")]
    [("session_token", create_jwt "bob" 0 100 "k")]
    (create_jwt "alice" 0 100 "k") (create_jwt "bob" 0 100 "k")
    rfl rfl (by decide) rfl rfl (by decide)
    "q1" "c1" { user_id := "u7" } { user_id := "u7" } DbState.emptyDb).1

/-- Inserting an entity whose id is its key preserves key coherence. -/
theorem questStoreWF_insert {store : Store QuestEntity}
    (h : QuestStoreWF store) {k : String} {q : QuestEntity}
    (hq : q.id = k) : QuestStoreWF (store.insert k q) := by
  intro k' q' hk'
  rw [Store.get_insert] at hk'
  by_cases hkk : k' = k
  · rw [if_pos hkk] at hk'
    cases hk'
    exact hq.trans hkk.symm
  · rw [if_neg hkk] at hk'
    exact h k' q' hk'

/-- Removing a key preserves key coherence. -/
theorem questStoreWF_remove {store : Store QuestEntity}
    (h : QuestStoreWF store) (k : String) :
    QuestStoreWF (store.remove k) := by
  intro k' q' hk'
  rw [Store.get_remove] at hk'
  by_cases hkk : k' = k
  · rw [if_pos hkk] at hk'
    cases hk'
  · rw [if_neg hkk] at hk'
    exact h k' q' hk'

/-- C10: every operation of the in-memory quest repository preserves the
invariant that the `id` of each stored entity equals the key it is stored
under; `create` and `update` return an entity whose id equals that key,
and `find` (when it succeeds) returns the entity of the requested
key. -/
theorem quest_memory_repo_key_coherence (store : Store QuestEntity)
    (h : QuestStoreWF store) :
    (∀ newId payload,
        QuestStoreWF (QuestRepositoryForMemory.create newId payload store).2
        ∧ (QuestRepositoryForMemory.create newId payload store).1.id = newId)
    ∧ (∀ id payload q' s',
        QuestRepositoryForMemory.update id payload store = .ok (q', s') →
        QuestStoreWF s' ∧ q'.id = id ∧ s'.get id = some q')
    ∧ (∀ id s',
        QuestRepositoryForMemory.delete id store = .ok s' →
        QuestStoreWF s')
    ∧ (∀ id q, QuestRepositoryForMemory.find id store = .ok q →
        q.id = id) := by
  refine ⟨?_, ?_, ?_, ?_⟩
  · intro newId payload
    constructor
    · show QuestStoreWF (store.insert newId (QuestEntity.new newId
        payload.title payload.description payload.price payload.difficulty
        payload.num_participate payload.num_clear))
      exact questStoreWF_insert h rfl
    · rfl
  · intro id payload q' s' hupd
    cases hget : store.get id with
    | none => simp [QuestRepositoryForMemory.update, hget] at hupd
    | some quest =>
        have hid : quest.id = id := h id quest hget
        simp only [QuestRepositoryForMemory.update, hget,
          Except.ok.injEq, Prod.mk.injEq] at hupd
        obtain ⟨hq', hs'⟩ := hupd
        subst hq'
        subst hs'
        refine ⟨questStoreWF_insert h hid, hid, ?_⟩
        rw [Store.get_insert, if_pos rfl]
  · intro id s' hdel
    cases hget : store.get id with
    | none => simp [QuestRepositoryForMemory.delete, hget] at hdel
    | some quest =>
        simp only [QuestRepositoryForMemory.delete, hget,
          Except.ok.injEq] at hdel
        subst hdel
        exact questStoreWF_remove h id
  · intro id q hfindq
    cases hget : store.get id with
    | none => simp [QuestRepositoryForMemory.find, hget] at hfindq
    | some quest =>
        simp only [QuestRepositoryForMemory.find, hget,
          Outcome.ok.injEq] at hfindq
        subst hfindq
        exact h id quest hget

/-- C10 witness: creating quest `"q1"` in the (coherent) empty store. -/
theorem quest_memory_repo_key_coherence_witness :
    QuestStoreWF (QuestRepositoryForMemory.create "q1"
      { title := "t", description := "d", price := 0, difficulty := .Easy,
        num_participate := 0, num_clear := 0 } Store.empty).2
    ∧ (QuestRepositoryForMemory.create "q1"
      { title := "t", description := "d", price := 0, difficulty := .Easy,
        num_participate := 0, num_clear := 0 } Store.empty).1.id = "q1" :=
  (quest_memory_repo_key_coherence Store.empty
    (fun k q hkq => by simp [Store.empty, Store.get] at hkq)).1 "q1"
    { title := "t", description := "d", price := 0, difficulty := .Easy,
      num_participate := 0, num_clear := 0 }

end QuestApi
